import Mathlib

/-!
# Kube-Vision streaming telemetry pipeline: a shallow embedding

This file embeds the core of the Kube-Vision backend and frontend streaming
pipeline in Lean and proves the specified properties about it:

* the Docker log-stream demultiplexer `stripDockerHeader` and the per-chunk
  log forwarding loop of `LogsHandler` (backend README);
* the stateful metric calculator `StatsCalculator.CalculateStats` /
  `calculateCPUPercent` / `ResetStats` / `ClearAllStats`
  (`internal/docker/metrics.go`);
* the stats producer loop of `StatsHandler` with its 1-second throttle and
  non-blocking bounded channel (`internal/websocket/stats_handler.go`);
* the client reconnect state machine of the `useWebSocket` hook
  (`frontend/src/hooks/useWebSocket.ts`).

Machine integers (`uint64`) are modelled as `Nat` with explicit wrap-around
modulo `2 ^ 64` where the Go code performs unsigned subtraction or addition;
`float64` arithmetic is modelled exactly over `ℚ`.
-/

namespace KubeVision

/-! ## Docker log stream demultiplexer (`stripDockerHeader`) -/

/-- Big-endian 32-bit value of four bytes, as computed by
`binary.BigEndian.Uint32(data[offset+4 : offset+8])`. -/
def beUint32 (s0 s1 s2 s3 : Nat) : Nat :=
  ((s0 * 256 + s1) * 256 + s2) * 256 + s3

/-- The scanning loop of `stripDockerHeader`, acting on the suffix of the
chunk that starts at the current `offset`.  If fewer than 8 bytes remain
(`offset+8 > len(data)`), the raw remainder is appended to the result and the
loop stops.  Otherwise the payload size is read big-endian from bytes 4–7;
if fewer than `8 + size` bytes remain, the bytes after the header
(`data[offset+8:]`) are appended and the loop stops; otherwise the
`size`-byte payload is appended and the scan advances past the frame. -/
def demuxLoop : List Nat → List Nat
  | _b0 :: _b1 :: _b2 :: _b3 :: s0 :: s1 :: s2 :: s3 :: rest =>
    let size := beUint32 s0 s1 s2 s3
    if rest.length < size then
      rest
    else
      rest.take size ++ demuxLoop (rest.drop size)
  | d => d
termination_by d => d.length
decreasing_by
  simp only [List.length_cons, List.length_drop]
  omega

/-- Embedding of `stripDockerHeader` from the backend README: inputs shorter
than 8 bytes are returned unchanged, longer inputs are scanned by the frame
loop.  The function is stateless: it keeps no carry-over between calls. -/
def stripDockerHeader (data : List Nat) : List Nat :=
  if data.length < 8 then data else demuxLoop data

/-- One Docker log frame: a 1-byte stream-type tag and a payload.  On the
wire it is encoded as the tag, 3 reserved zero bytes, the 4-byte big-endian
payload length, then the payload. -/
structure LogFrame where
  streamType : Nat
  payload : List Nat

/-- The four big-endian bytes of a 32-bit length. -/
def beBytes32 (n : Nat) : List Nat :=
  [n / 2 ^ 24 % 256, n / 2 ^ 16 % 256, n / 2 ^ 8 % 256, n % 256]

/-- The 8-byte header of one log frame: the stream-type tag, three reserved
zero bytes, and the big-endian payload length. -/
def frameHeader (f : LogFrame) : List Nat :=
  f.streamType :: 0 :: 0 :: 0 :: beBytes32 f.payload.length

/-- Wire encoding of one log frame. -/
def encodeFrame (f : LogFrame) : List Nat :=
  frameHeader f ++ f.payload

/-- Wire encoding of a sequence of log frames. -/
def encodeFrames (fs : List LogFrame) : List Nat :=
  (fs.map encodeFrame).flatten

/-- A frame sequence is well formed when every payload length fits in the
4-byte length field. -/
def framesWellFormed (fs : List LogFrame) : Prop :=
  ∀ f ∈ fs, f.payload.length < 2 ^ 32

/-- The read loop of `LogsHandler`: each chunk read from the runtime is
passed through `stripDockerHeader` independently and the stripped bytes are
written to the transport in order, so the emitted byte sequence is the
concatenation of the per-chunk outputs. -/
def logsRun (chunks : List (List Nat)) : List Nat :=
  (chunks.map stripDockerHeader).flatten

/-! ## Unsigned 64-bit arithmetic -/

/-- The modulus of Go `uint64` arithmetic. -/
def U64 : Nat := 2 ^ 64

/-- Go `uint64` subtraction `a - b` (two's-complement wrap-around), for
operands below `2 ^ 64`. -/
def wsub (a b : Nat) : Nat :=
  (a + U64 - b) % U64

/-- Go `uint64` addition `a + b` with wrap-around. -/
def wadd (a b : Nat) : Nat :=
  (a + b) % U64

/-! ## Raw Docker stats sample (`container.StatsResponse`, relevant fields) -/

/-- Fields of `CPUStats.CPUUsage` read by the calculator. -/
structure CPUUsage where
  totalUsage : Nat
  percpuUsage : List Nat

/-- Fields of `CPUStats` read by the calculator. -/
structure CPUStats where
  cpuUsage : CPUUsage
  systemUsage : Nat
  onlineCPUs : Nat

/-- Fields of `MemoryStats` read by the calculator; `stats` is the optional
`map[string]uint64` of detailed memory statistics (`nil` when absent). -/
structure MemoryStats where
  usage : Nat
  limit : Nat
  stats : Option (List (String × Nat))

/-- One entry of the per-interface network statistics map. -/
structure NetworkStats where
  rxBytes : Nat
  txBytes : Nat

/-- One entry of `BlkioStats.IoServiceBytesRecursive`. -/
structure BlkioStatEntry where
  op : String
  value : Nat

/-- Fields of `PidsStats` read by the calculator. -/
structure PidsStats where
  current : Nat

/-- The slice of `container.StatsResponse` consumed by `CalculateStats`.
`networks` and `blkioEntries` are `none` when the corresponding field of the
response is `nil`. -/
structure StatsResponse where
  cpuStats : CPUStats
  memoryStats : MemoryStats
  networks : Option (List (String × NetworkStats))
  blkioEntries : Option (List BlkioStatEntry)
  pidsStats : PidsStats

/-! ## Calculated stats and the stateful calculator (`metrics.go`) -/

/-- Embedding of `docker.ContainerStats`; the `float64` percentage fields are
modelled over `ℚ` and the timestamp as an abstract instant. -/
structure ContainerStats where
  containerID : String
  timestamp : Nat
  cpuPercent : ℚ
  memoryUsage : Nat
  memoryLimit : Nat
  memoryPercent : ℚ
  networkRx : Nat
  networkTx : Nat
  blockRead : Nat
  blockWrite : Nat
  pids : Nat

/-- The `previousStats` map of `StatsCalculator`: per-container baseline,
absent until the first sample for that container is stored. -/
def CalcState : Type :=
  String → Option StatsResponse

/-- The empty baseline store, as built by `NewStatsCalculator`. -/
def emptyCalcState : CalcState :=
  fun _ => none

/-- Embedding of `calculateCPUPercent`: both deltas are `uint64`
subtractions; the result is `0` when the system delta is zero or the CPU
counter moved backward, and otherwise the rate formula clamped below at `0`
and above at `1000`.  The online-core count prefers the length of the
per-core usage list, then the explicit `OnlineCPUs` field, then `1`. -/
def calculateCPUPercent (prevStats currStats : StatsResponse) : ℚ :=
  let prevCPU := prevStats.cpuStats.cpuUsage.totalUsage
  let prevSystem := prevStats.cpuStats.systemUsage
  let currCPU := currStats.cpuStats.cpuUsage.totalUsage
  let currSystem := currStats.cpuStats.systemUsage
  let deltaCPU := wsub currCPU prevCPU
  let deltaSystem := wsub currSystem prevSystem
  if deltaSystem = 0 ∨ currCPU < prevCPU then 0
  else
    let onlineCPUs0 : ℚ := (currStats.cpuStats.cpuUsage.percpuUsage.length : ℚ)
    let onlineCPUs1 : ℚ :=
      if onlineCPUs0 = 0 then (currStats.cpuStats.onlineCPUs : ℚ) else onlineCPUs0
    let onlineCPUs : ℚ := if onlineCPUs1 = 0 then 1 else onlineCPUs1
    let cpuPercent := (deltaCPU : ℚ) / (deltaSystem : ℚ) * onlineCPUs * 100
    let cpuPercent1 := if cpuPercent < 0 then 0 else cpuPercent
    if cpuPercent1 > 1000 then 1000 else cpuPercent1

/-- The cache value the memory branch of `CalculateStats` extracts from a
sample: the value at key `cache` of the detailed memory-stats map, or `0`
when the map is `nil` or the key is absent. -/
def reportedCache (stats : StatsResponse) : Nat :=
  match stats.memoryStats.stats with
  | some m =>
    match m.lookup "cache" with
    | some cacheVal => cacheVal
    | none => 0
  | none => 0

/-- Summed receive bytes across all reported network interfaces (`uint64`
addition). -/
def sumNetworkRx (stats : StatsResponse) : Nat :=
  match stats.networks with
  | some nets => nets.foldl (fun acc n => wadd acc n.2.rxBytes) 0
  | none => 0

/-- Summed transmit bytes across all reported network interfaces. -/
def sumNetworkTx (stats : StatsResponse) : Nat :=
  match stats.networks with
  | some nets => nets.foldl (fun acc n => wadd acc n.2.txBytes) 0
  | none => 0

/-- Summed block-I/O bytes for one operation tag; entries with other tags
are ignored. -/
def sumBlkio (stats : StatsResponse) (opTag : String) : Nat :=
  match stats.blkioEntries with
  | some entries =>
    entries.foldl (fun acc e => if e.op = opTag then wadd acc e.value else acc) 0
  | none => 0

/-- Embedding of `StatsCalculator.CalculateStats`.  CPU percent is `0` when
no baseline is stored; memory percent excludes the reported cache by
`uint64` subtraction and is `0` when the limit is `0`; the current sample
unconditionally replaces the stored baseline for the container.  The Go
method can signal an error in its signature but never does, which the
`Except` result makes explicit. -/
def CalculateStats (sc : CalcState) (containerID : String) (now : Nat)
    (stats : StatsResponse) : Except String (ContainerStats × CalcState) :=
  let cpuPercent : ℚ :=
    match sc containerID with
    | some prevStats => calculateCPUPercent prevStats stats
    | none => 0
  let memoryUsage := stats.memoryStats.usage
  let memoryLimit := stats.memoryStats.limit
  let memoryPercent : ℚ :=
    if memoryLimit > 0 then
      let cache := reportedCache stats
      let rss := wsub memoryUsage cache
      (rss : ℚ) / (memoryLimit : ℚ) * 100
    else 0
  let result : ContainerStats :=
    { containerID := containerID
      timestamp := now
      cpuPercent := cpuPercent
      memoryUsage := memoryUsage
      memoryLimit := memoryLimit
      memoryPercent := memoryPercent
      networkRx := sumNetworkRx stats
      networkTx := sumNetworkTx stats
      blockRead := sumBlkio stats "Read"
      blockWrite := sumBlkio stats "Write"
      pids := stats.pidsStats.current }
  Except.ok (result, fun k => if k = containerID then some stats else sc k)

/-- Embedding of `ResetStats`: removes the baseline of one container. -/
def ResetStats (sc : CalcState) (containerID : String) : CalcState :=
  fun k => if k = containerID then none else sc k

/-- Embedding of `ClearAllStats`: replaces the store by a fresh empty map. -/
def ClearAllStats (_sc : CalcState) : CalcState :=
  emptyCalcState

/-! ## Spec-side formulas for the calculator (refinement targets) -/

/-- Clamp a rational to the closed interval `[lo, hi]`. -/
def clampQ (lo hi q : ℚ) : ℚ :=
  max lo (min hi q)

/-- The online-core count used by the CPU formula: the length of the
per-core usage list, falling back to the explicit online-core count, falling
back to `1`. -/
def onlineCoreCount (stats : StatsResponse) : ℚ :=
  if stats.cpuStats.cpuUsage.percpuUsage.length ≠ 0 then
    (stats.cpuStats.cpuUsage.percpuUsage.length : ℚ)
  else if stats.cpuStats.onlineCPUs ≠ 0 then (stats.cpuStats.onlineCPUs : ℚ)
  else 1

/-- CPU percentage exactly as the spec states it: `0` when the system delta
is zero or the cumulative CPU counter moved backward, otherwise
`(deltaCPU / deltaSystem) * onlineCoreCount * 100` clamped to `[0, 1000]`,
with both deltas taken as the unsigned 64-bit differences the code
computes. -/
def cpuPercentSpec (prevStats currStats : StatsResponse) : ℚ :=
  let deltaCPU :=
    wsub currStats.cpuStats.cpuUsage.totalUsage prevStats.cpuStats.cpuUsage.totalUsage
  let deltaSystem := wsub currStats.cpuStats.systemUsage prevStats.cpuStats.systemUsage
  if deltaSystem = 0 ∨
      currStats.cpuStats.cpuUsage.totalUsage < prevStats.cpuStats.cpuUsage.totalUsage then 0
  else clampQ 0 1000 ((deltaCPU : ℚ) / (deltaSystem : ℚ) * onlineCoreCount currStats * 100)

/-- Memory percentage exactly as the spec states it: `rss = usage − cache`
(the unsigned 64-bit subtraction the code performs, with cache `0` when
unreported), `percent = rss / limit * 100` when `limit > 0`, else `0`. -/
def memoryPercentSpec (usage limit cache : Nat) : ℚ :=
  if limit > 0 then ((wsub usage cache : Nat) : ℚ) / (limit : ℚ) * 100 else 0

/-- Projection of the memory percent computed by `CalculateStats`, `0` in
the (unreachable) error case. -/
def memPercentOf (sc : CalcState) (containerID : String) (now : Nat)
    (stats : StatsResponse) : ℚ :=
  match CalculateStats sc containerID now stats with
  | Except.ok (r, _) => r.memoryPercent
  | Except.error _ => 0

/-- Projection of the CPU percent computed by `CalculateStats`, `0` in the
(unreachable) error case. -/
def cpuPercentOf (sc : CalcState) (containerID : String) (now : Nat)
    (stats : StatsResponse) : ℚ :=
  match CalculateStats sc containerID now stats with
  | Except.ok (r, _) => r.cpuPercent
  | Except.error _ => 0

/-- Whether `CalculateStats` returned without error. -/
def calcOk (sc : CalcState) (containerID : String) (now : Nat)
    (stats : StatsResponse) : Bool :=
  match CalculateStats sc containerID now stats with
  | Except.ok _ => true
  | Except.error _ => false

/-- The baseline store after a call to `CalculateStats` (unchanged in the
unreachable error case). -/
def calcNext (sc : CalcState) (containerID : String) (now : Nat)
    (stats : StatsResponse) : CalcState :=
  match CalculateStats sc containerID now stats with
  | Except.ok (_, sc2) => sc2
  | Except.error _ => sc

/-! ## Stats producer loop of `StatsHandler` (`stats_handler.go`) -/

/-- Capacity of the buffered stats channel `make(chan *docker.ContainerStats, 100)`. -/
def statsChanCap : Nat := 100

/-- The minimum spacing between forwarded results, `1 * time.Second` in
nanoseconds. -/
def sendInterval : Nat := 1000000000

/-- The non-blocking send `select { case statsChan <- x: ... default: ... }`
on a buffered channel of capacity `statsChanCap`, modelled on the buffer
contents: if the buffer has room the item is appended and the send reports
success, otherwise the buffer is unchanged and the send reports failure.
The operation is total — the producer never waits. -/
def trySend (q : List ContainerStats) (x : ContainerStats) :
    List ContainerStats × Bool :=
  if q.length < statsChanCap then (q ++ [x], true) else (q, false)

/-- State of the producer goroutine of `StatsHandler`: the time of the last
successful send, the shared calculator state, the channel buffer, the
ordered list of samples passed to `CalculateStats`, and the count of
buffer-full warnings. -/
structure ProducerState where
  lastSendTime : Nat
  calcState : CalcState
  statsChan : List ContainerStats
  calcCalls : List StatsResponse
  warnings : Nat

/-- Initial producer state: `lastSendTime := time.Now()` at stream start, an
empty channel buffer and the pre-existing calculator state. -/
def initProducer (startTime : Nat) (sc : CalcState) : ProducerState :=
  { lastSendTime := startTime
    calcState := sc
    statsChan := []
    calcCalls := []
    warnings := 0 }

/-- One iteration of the producer loop on a decoded sample arriving at
instant `now`: when at least `sendInterval` has elapsed since
`lastSendTime`, the sample is passed to `CalculateStats` and the result is
sent non-blockingly — `lastSendTime` advances only on a successful send and
a full buffer records a warning; otherwise the iteration does nothing with
the sample. -/
def producerStep (containerID : String) (st : ProducerState)
    (ev : Nat × StatsResponse) : ProducerState :=
  let now := ev.1
  let sample := ev.2
  if sendInterval ≤ now - st.lastSendTime then
    match CalculateStats st.calcState containerID now sample with
    | Except.ok (r, calcState2) =>
      let send := trySend st.statsChan r
      { lastSendTime := if send.2 then now else st.lastSendTime
        calcState := calcState2
        statsChan := send.1
        calcCalls := st.calcCalls ++ [sample]
        warnings := st.warnings + if send.2 then 0 else 1 }
    | Except.error _ => { st with calcCalls := st.calcCalls ++ [sample] }
  else st

/-- The producer loop over a finite arrival sequence of decoded samples. -/
def producerRun (containerID : String) (st : ProducerState)
    (evs : List (Nat × StatsResponse)) : ProducerState :=
  evs.foldl (producerStep containerID) st

/-! ## Client reconnect state machine (`useWebSocket.ts`) -/

/-- The four values of the `WebSocketStatus` union type. -/
inductive WSStatus where
  | connecting
  | connected
  | disconnected
  | error
deriving DecidableEq

/-- State of the `useWebSocket` hook: the connection status, the configured
target address (`url`, `null` modelled as `none`), the reconnect-attempt
counter `reconnectAttemptsRef`, and the pending scheduled reconnect delay
(`reconnectTimeoutRef`, `none` when no timer is pending). -/
structure WSState where
  status : WSStatus
  url : Option String
  reconnectAttempts : Nat
  reconnectTimeout : Option Nat

/-- Default `reconnectInterval` of the hook, in milliseconds. -/
def reconnectIntervalDefault : Nat := 1000

/-- Default `maxReconnectAttempts` of the hook. -/
def maxReconnectAttemptsDefault : Nat := 10

/-- The 30-second cap on the exponential backoff delay, in milliseconds. -/
def backoffCap : Nat := 30000

/-- The `connect` callback: with no configured url the status becomes
`disconnected` and nothing else happens; otherwise a socket is opened and
the status becomes `connecting`. -/
def wsConnect (s : WSState) : WSState :=
  match s.url with
  | none => { s with status := WSStatus.disconnected }
  | some _ => { s with status := WSStatus.connecting }

/-- The `onopen` handler: status `connected`, attempt counter reset to 0. -/
def wsOnOpen (s : WSState) : WSState :=
  { s with status := WSStatus.connected, reconnectAttempts := 0 }

/-- The `onerror` handler: status `error`. -/
def wsOnError (s : WSState) : WSState :=
  { s with status := WSStatus.error }

/-- The `onclose` handler with the default `reconnect = true` option:
status `disconnected`, and while the attempt counter is below the maximum a
reconnect is scheduled after `min(reconnectInterval * 2 ^ attempts, 30000)`
milliseconds and the counter is incremented; at or above the maximum no
timer is scheduled. -/
def wsOnClose (s : WSState) : WSState :=
  let s1 := { s with status := WSStatus.disconnected }
  if s1.reconnectAttempts < maxReconnectAttemptsDefault then
    { s1 with
      reconnectAttempts := s1.reconnectAttempts + 1
      reconnectTimeout :=
        some (min (reconnectIntervalDefault * 2 ^ s1.reconnectAttempts) backoffCap) }
  else s1

/-- Expiry of the scheduled reconnect timer: the pending handle is consumed
and `connect` runs. -/
def wsTimerFire (s : WSState) : WSState :=
  wsConnect { s with reconnectTimeout := none }

/-- The `disconnect` callback: any pending reconnect timer is cleared, the
socket is closed, and the status becomes `disconnected`. -/
def wsDisconnect (s : WSState) : WSState :=
  { s with reconnectTimeout := none, status := WSStatus.disconnected }

/-- Setting the target address to `null`: the effect cleanup runs
`disconnect` (cancelling any pending timer) and the effect then runs
`connect` with the null url, which leaves the status `disconnected`. -/
def wsSetUrlNone (s : WSState) : WSState :=
  wsConnect { wsDisconnect s with url := none }

/-! ## Concrete inputs used by witnesses and counterexamples -/

/-- A baseline sample: cumulative CPU `1e9`, system `2e9` (the worked
example of the spec). -/
def samplePrev : StatsResponse :=
  { cpuStats :=
      { cpuUsage := { totalUsage := 1000000000, percpuUsage := [] }
        systemUsage := 2000000000
        onlineCPUs := 0 }
    memoryStats := { usage := 0, limit := 0, stats := none }
    networks := none
    blkioEntries := none
    pidsStats := { current := 0 } }

/-- A follow-up sample: cumulative CPU `2e9`, system `4e9`, four cores,
memory usage `1.2e9` with cache `2e8` and limit `2e9` (the worked examples
of the spec). -/
def sampleCurr : StatsResponse :=
  { cpuStats :=
      { cpuUsage := { totalUsage := 2000000000, percpuUsage := [1, 2, 3, 4] }
        systemUsage := 4000000000
        onlineCPUs := 0 }
    memoryStats :=
      { usage := 1200000000
        limit := 2000000000
        stats := some [("cache", 200000000)] }
    networks := none
    blkioEntries := none
    pidsStats := { current := 5 } }

/-- A sample whose reported cache exceeds its memory usage while the limit
is positive. -/
def sampleWrap : StatsResponse :=
  { cpuStats :=
      { cpuUsage := { totalUsage := 0, percpuUsage := [] }
        systemUsage := 0
        onlineCPUs := 0 }
    memoryStats := { usage := 100, limit := 1000, stats := some [("cache", 200)] }
    networks := none
    blkioEntries := none
    pidsStats := { current := 0 } }

/-- A baseline store holding `samplePrev` for container `c`. -/
def baselineC : CalcState :=
  fun k => if k = "c" then some samplePrev else none

/-- A fixed calculated-stats value used to drive the bounded queue. -/
def cstats0 : ContainerStats :=
  { containerID := "c"
    timestamp := 0
    cpuPercent := 0
    memoryUsage := 0
    memoryLimit := 0
    memoryPercent := 0
    networkRx := 0
    networkTx := 0
    blockRead := 0
    blockWrite := 0
    pids := 0 }

/-! ## Demultiplexer lemmas -/

/-- The frame-scanning loop leaves a chunk of fewer than 8 bytes
unchanged. -/
theorem demuxLoop_of_length_lt (d : List Nat) (h : d.length < 8) :
    demuxLoop d = d := by
  rcases d with _ | ⟨a, _ | ⟨b, _ | ⟨c, _ | ⟨e, _ | ⟨f, _ | ⟨g, _ | ⟨i, _ | ⟨j, rest⟩⟩⟩⟩⟩⟩⟩⟩ <;>
    first
      | rfl
      | (simp only [List.length_cons] at h; omega)
      | simp [demuxLoop]

/-- Unfolding equation of the scanning loop on a chunk holding a full
header. -/
theorem demuxLoop_cons (b0 b1 b2 b3 s0 s1 s2 s3 : Nat) (rest : List Nat) :
    demuxLoop (b0 :: b1 :: b2 :: b3 :: s0 :: s1 :: s2 :: s3 :: rest) =
      if rest.length < beUint32 s0 s1 s2 s3 then rest
      else
        rest.take (beUint32 s0 s1 s2 s3) ++
          demuxLoop (rest.drop (beUint32 s0 s1 s2 s3)) := by
  rw [demuxLoop]

/-- `stripDockerHeader` coincides with its scanning loop. -/
theorem stripDockerHeader_eq_demuxLoop (d : List Nat) :
    stripDockerHeader d = demuxLoop d := by
  unfold stripDockerHeader
  split
  · exact (demuxLoop_of_length_lt d (by assumption)).symm
  · rfl

/-- Decoding the four big-endian bytes of a 32-bit value recovers it. -/
theorem beUint32_beBytes32 (n : Nat) (h : n < 2 ^ 32) :
    beUint32 (n / 2 ^ 24 % 256) (n / 2 ^ 16 % 256) (n / 2 ^ 8 % 256) (n % 256) = n := by
  unfold beUint32
  omega

/-- On the encoding of a well-formed frame sequence given whole, the
scanning loop emits exactly the concatenated payloads. -/
theorem demuxLoop_encodeFrames :
    ∀ fs : List LogFrame, framesWellFormed fs →
      demuxLoop (encodeFrames fs) = (fs.map LogFrame.payload).flatten := by
  intro fs
  induction fs with
  | nil =>
    intro _
    show demuxLoop [] = []
    exact demuxLoop_of_length_lt [] (by simp)
  | cons f fs ih =>
    intro h
    have hf : f.payload.length < 2 ^ 32 := h f (List.mem_cons_self f fs)
    have hfs : framesWellFormed fs := fun g hg => h g (List.mem_cons_of_mem f hg)
    have henc : encodeFrames (f :: fs) =
        f.streamType :: 0 :: 0 :: 0 ::
          (f.payload.length / 2 ^ 24 % 256) :: (f.payload.length / 2 ^ 16 % 256) ::
          (f.payload.length / 2 ^ 8 % 256) :: (f.payload.length % 256) ::
          (f.payload ++ encodeFrames fs) := by
      simp [encodeFrames, encodeFrame, frameHeader, beBytes32]
    rw [henc, demuxLoop_cons, beUint32_beBytes32 _ hf]
    have hlen : ¬ (f.payload ++ encodeFrames fs).length < f.payload.length := by
      simp
    rw [if_neg hlen]
    have ht : (f.payload ++ encodeFrames fs).take f.payload.length = f.payload := by
      simp
    have hd : (f.payload ++ encodeFrames fs).drop f.payload.length = encodeFrames fs := by
      simp
    rw [ht, hd, ih hfs]
    simp

/-- The scanning loop of the empty chunk. -/
theorem demuxLoop_nil : demuxLoop [] = [] :=
  demuxLoop_of_length_lt [] (by simp)

/-- A chunk of fewer than 8 bytes is returned verbatim. -/
theorem stripDockerHeader_short (d : List Nat) (h : d.length < 8) :
    stripDockerHeader d = d := by
  unfold stripDockerHeader
  rw [if_pos h]

/-- C1 (counterexample): the singleton frame `type 1, payload [65]` encoded
as `[1,0,0,0,0,0,0,1,65]` yields payload `[65]` when fed in one chunk, but
fed byte by byte the demultiplexer — which keeps no carry-over between
calls — emits all nine raw bytes, a different sequence.  Chunking
invariance fails. -/
theorem logsRun_single_byte_chunking_differs :
    logsRun [[1, 0, 0, 0, 0, 0, 0, 1, 65]] ≠
      logsRun (([1, 0, 0, 0, 0, 0, 0, 1, 65] : List Nat).map fun b => [b]) := by
  have h1 : logsRun [[1, 0, 0, 0, 0, 0, 0, 1, 65]] = [65] := by
    show stripDockerHeader [1, 0, 0, 0, 0, 0, 0, 1, 65] ++ [] = [65]
    rw [stripDockerHeader_eq_demuxLoop, demuxLoop_cons]
    norm_num [beUint32, demuxLoop_nil]
  have h2 : logsRun (([1, 0, 0, 0, 0, 0, 0, 1, 65] : List Nat).map fun b => [b]) =
      [1, 0, 0, 0, 0, 0, 0, 1, 65] := by
    show stripDockerHeader [1] ++ (stripDockerHeader [0] ++ (stripDockerHeader [0] ++
      (stripDockerHeader [0] ++ (stripDockerHeader [0] ++ (stripDockerHeader [0] ++
      (stripDockerHeader [0] ++ (stripDockerHeader [1] ++
      (stripDockerHeader [65] ++ [])))))))) = [1, 0, 0, 0, 0, 0, 0, 1, 65]
    rw [stripDockerHeader_short [1] (by norm_num), stripDockerHeader_short [0] (by norm_num),
      stripDockerHeader_short [65] (by norm_num)]
    rfl
  rw [h1, h2]
  simp

/-- C1 (amended): feeding the encoding of a well-formed frame sequence to
the log read loop as one whole chunk emits exactly the ordered concatenation
of the frame payloads.  (The original chunking-invariance claim fails: the
demultiplexer keeps no carry-over state, so other chunkings can emit
different bytes.) -/
theorem stripDockerHeader_one_chunk_roundtrip (fs : List LogFrame)
    (h : framesWellFormed fs) :
    logsRun [encodeFrames fs] = (fs.map LogFrame.payload).flatten := by
  have hmain := demuxLoop_encodeFrames fs h
  show stripDockerHeader (encodeFrames fs) ++ [] = _
  rw [stripDockerHeader_eq_demuxLoop, hmain]
  simp

/-- C1 (witness): the one-chunk round trip evaluated on the two-frame
sequence `(1, [65]), (2, [66, 67])`. -/
theorem stripDockerHeader_one_chunk_roundtrip_witness :
    logsRun [encodeFrames [⟨1, [65]⟩, ⟨2, [66, 67]⟩]] = [65, 66, 67] := by
  have h := stripDockerHeader_one_chunk_roundtrip [⟨1, [65]⟩, ⟨2, [66, 67]⟩]
    (by intro f hf; fin_cases hf <;> norm_num)
  simpa using h

/-- C2 (counterexample): the 9-byte chunk `[1,0,0,0,0,0,0,2,65]` carries a
full header announcing a 2-byte payload but only one payload byte, so it
holds no complete frame; the demultiplexer nevertheless emits `[65]` in the
same call instead of retaining the bytes as carry-over. -/
theorem stripDockerHeader_emits_partial_frame :
    stripDockerHeader [1, 0, 0, 0, 0, 0, 0, 2, 65] = [65] ∧
      List.length ([1, 0, 0, 0, 0, 0, 0, 2, 65] : List Nat) < 8 + 2 := by
  constructor
  · rw [stripDockerHeader_eq_demuxLoop, demuxLoop_cons]
    norm_num [beUint32]
  · norm_num

/-- C2 (amended): the demultiplexer keeps no carry-over state.  A chunk made
of a full frame header followed by only `k` of the announced payload bytes
makes the call emit those `k` payload bytes immediately, and any chunk
shorter than a full header is emitted verbatim; nothing is retained for the
next call. -/
theorem stripDockerHeader_stateless (t : Nat) (p : List Nat) (k : Nat)
    (hk : k < p.length) (hp : p.length < 2 ^ 32) :
    stripDockerHeader (frameHeader ⟨t, p⟩ ++ p.take k) = p.take k ∧
      ∀ d : List Nat, d.length < 8 → stripDockerHeader d = d := by
  constructor
  · have henc : frameHeader ⟨t, p⟩ ++ p.take k =
        t :: 0 :: 0 :: 0 :: (p.length / 2 ^ 24 % 256) :: (p.length / 2 ^ 16 % 256) ::
          (p.length / 2 ^ 8 % 256) :: (p.length % 256) :: p.take k := by
      simp [frameHeader, beBytes32]
    rw [henc, stripDockerHeader_eq_demuxLoop, demuxLoop_cons, beUint32_beBytes32 _ hp]
    have hlt : (p.take k).length < p.length := by
      simp [List.length_take]
      omega
    rw [if_pos hlt]
  · exact fun d hd => stripDockerHeader_short d hd

/-- C2 (witness): the stateless behaviour evaluated on the frame
`(1, [65, 66, 67])` cut after two payload bytes, and on the 2-byte chunk
`[9, 9]`. -/
theorem stripDockerHeader_stateless_witness :
    stripDockerHeader [1, 0, 0, 0, 0, 0, 0, 3, 65, 66] = [65, 66] ∧
      stripDockerHeader [9, 9] = [9, 9] := by
  have h := stripDockerHeader_stateless 1 [65, 66, 67] 2 (by norm_num) (by norm_num)
  constructor
  · have h1 := h.1
    rw [show frameHeader ⟨1, [65, 66, 67]⟩ ++ ([65, 66, 67] : List Nat).take 2 =
      [1, 0, 0, 0, 0, 0, 0, 3, 65, 66] from rfl] at h1
    rw [show ([65, 66, 67] : List Nat).take 2 = [65, 66] from rfl] at h1
    exact h1
  · exact h.2 [9, 9] (by norm_num)

/-! ## Metric calculator lemmas -/

/-- The two successive clamping conditionals of `calculateCPUPercent` equal
a clamp to `[0, 1000]` on nonnegative input. -/
theorem clampQ_code (f : ℚ) (hf : 0 ≤ f) :
    (if (if f < 0 then (0 : ℚ) else f) > 1000 then (1000 : ℚ)
      else if f < 0 then 0 else f) = clampQ 0 1000 f := by
  rw [if_neg (not_lt.mpr hf)]
  unfold clampQ
  rcases le_or_lt f 1000 with h | h
  · rw [if_neg (not_lt.mpr h), min_eq_right h, max_eq_right hf]
  · rw [if_pos h, min_eq_left h.le]
    norm_num

/-- The clamped CPU percentage is never negative. -/
theorem clampQ_code_nonneg (f : ℚ) :
    0 ≤ (if (if f < 0 then (0 : ℚ) else f) > 1000 then (1000 : ℚ)
      else if f < 0 then 0 else f) := by
  split
  · norm_num
  · split
    · norm_num
    · linarith [not_lt.mp (by assumption : ¬ f < 0)]

/-- The sequential fallback chain of `calculateCPUPercent` computes the
spec-side online-core count. -/
theorem onlineCPUs_code_eq (s : StatsResponse) :
    (if (if (s.cpuStats.cpuUsage.percpuUsage.length : ℚ) = 0
          then (s.cpuStats.onlineCPUs : ℚ)
          else (s.cpuStats.cpuUsage.percpuUsage.length : ℚ)) = 0 then (1 : ℚ)
      else if (s.cpuStats.cpuUsage.percpuUsage.length : ℚ) = 0
          then (s.cpuStats.onlineCPUs : ℚ)
          else (s.cpuStats.cpuUsage.percpuUsage.length : ℚ)) = onlineCoreCount s := by
  unfold onlineCoreCount
  by_cases h1 : s.cpuStats.cpuUsage.percpuUsage.length = 0
  · by_cases h2 : s.cpuStats.onlineCPUs = 0
    · simp [h1, h2]
    · simp [h1, h2]
  · simp [h1]

/-- The online-core count is nonnegative. -/
theorem onlineCoreCount_nonneg (s : StatsResponse) : 0 ≤ onlineCoreCount s := by
  unfold onlineCoreCount
  split
  · positivity
  · split
    · positivity
    · norm_num

/-- `calculateCPUPercent` computes exactly the spec-side CPU percentage and
is never negative. -/
theorem calculateCPUPercent_eq_spec (prev curr : StatsResponse) :
    calculateCPUPercent prev curr = cpuPercentSpec prev curr ∧
      0 ≤ calculateCPUPercent prev curr := by
  simp only [calculateCPUPercent, cpuPercentSpec]
  by_cases hg : wsub curr.cpuStats.systemUsage prev.cpuStats.systemUsage = 0 ∨
      curr.cpuStats.cpuUsage.totalUsage < prev.cpuStats.cpuUsage.totalUsage
  · simp [hg]
  · rw [if_neg hg, if_neg hg]
    rw [onlineCPUs_code_eq curr]
    have hf : 0 ≤ ((wsub curr.cpuStats.cpuUsage.totalUsage prev.cpuStats.cpuUsage.totalUsage : Nat) : ℚ) /
        ((wsub curr.cpuStats.systemUsage prev.cpuStats.systemUsage : Nat) : ℚ) *
        onlineCoreCount curr * 100 := by
      exact mul_nonneg (mul_nonneg (div_nonneg (Nat.cast_nonneg _) (Nat.cast_nonneg _))
        (onlineCoreCount_nonneg curr)) (by norm_num)
    exact ⟨clampQ_code _ hf, clampQ_code_nonneg _⟩

/-- The memory percent computed by `CalculateStats` equals the spec-side
formula on the sample's usage, limit and reported cache. -/
theorem memPercentOf_eq (sc : CalcState) (cid : String) (now : Nat)
    (s : StatsResponse) :
    memPercentOf sc cid now s =
      memoryPercentSpec s.memoryStats.usage s.memoryStats.limit (reportedCache s) := by
  simp only [memPercentOf, CalculateStats, memoryPercentSpec]

/-- C5: for a container with a stored baseline, the CPU percent returned by
`CalculateStats` is `0` whenever the unsigned system delta is zero or the
cumulative CPU counter moved backward, and otherwise equals
`(deltaCPU / deltaSystem) * onlineCoreCount * 100` clamped to `[0, 1000]`
(that is exactly `cpuPercentSpec`); the result is never negative. -/
theorem calculateStats_cpu_correct (sc : CalcState) (cid : String) (now : Nat)
    (s prev : StatsResponse) (hprev : sc cid = some prev) :
    cpuPercentOf sc cid now s = cpuPercentSpec prev s ∧
      0 ≤ cpuPercentOf sc cid now s := by
  have h := calculateCPUPercent_eq_spec prev s
  simpa [cpuPercentOf, CalculateStats, hprev] using h

/-- C5 (witness): the spec worked example — baseline CPU `1e9` / system
`2e9`, sample CPU `2e9` / system `4e9` with four cores — gives exactly
`200` percent. -/
theorem calculateStats_cpu_correct_witness :
    cpuPercentOf baselineC "c" 5 sampleCurr = 200 := by
  have h := (calculateStats_cpu_correct baselineC "c" 5 sampleCurr samplePrev rfl).1
  rw [h]
  norm_num [cpuPercentSpec, samplePrev, sampleCurr, onlineCoreCount, clampQ,
    wsub, U64]

/-- C6: a container with no stored baseline — never seen, removed by
`ResetStats`, or after `ClearAllStats` — makes the next `CalculateStats`
return CPU percent `0` without failing; `ResetStats` and `ClearAllStats`
leave no baseline at the affected key. -/
theorem calculateStats_first_seen (sc : CalcState) (cid : String) (now : Nat)
    (s : StatsResponse) :
    (sc cid = none → calcOk sc cid now s = true ∧ cpuPercentOf sc cid now s = 0)
    ∧ ResetStats sc cid cid = none
    ∧ ClearAllStats sc cid = none := by
  refine ⟨fun hnone => ?_, ?_, ?_⟩
  · simp [calcOk, cpuPercentOf, CalculateStats, hnone]
  · simp [ResetStats]
  · rfl

/-- C6 (witness): a first-seen container on the empty baseline store. -/
theorem calculateStats_first_seen_witness :
    calcOk emptyCalcState "c" 0 sampleCurr = true ∧
      cpuPercentOf emptyCalcState "c" 0 sampleCurr = 0 :=
  (calculateStats_first_seen emptyCalcState "c" 0 sampleCurr).1 rfl

/-- C7: after every call to `CalculateStats` — also on the 0%-fallback
paths — the stored baseline of the container equals the sample just passed
in, and the baselines of all other containers are unchanged. -/
theorem calculateStats_baseline_update (sc : CalcState) (cid : String)
    (now : Nat) (s : StatsResponse) :
    calcNext sc cid now s cid = some s ∧
      ∀ k, k ≠ cid → calcNext sc cid now s k = sc k := by
  constructor
  · simp [calcNext, CalculateStats]
  · intro k hk
    simp [calcNext, CalculateStats, hk]

/-- C7 (witness): the baseline update evaluated on the empty store. -/
theorem calculateStats_baseline_update_witness :
    calcNext emptyCalcState "c" 0 sampleCurr "c" = some sampleCurr ∧
      calcNext emptyCalcState "c" 0 sampleCurr "d" = none :=
  ⟨(calculateStats_baseline_update emptyCalcState "c" 0 sampleCurr).1,
    (calculateStats_baseline_update emptyCalcState "c" 0 sampleCurr).2 "d" (by decide)⟩

/-- C9: for every sample, the memory percent equals
`(usage − cache) / limit * 100` — the subtraction being the unsigned 64-bit
one the code performs, with cache `0` when unreported — when `limit > 0`,
and `0` when the limit is `0`; on usage `1.2e9`, cache `2e8`, limit `2e9`
the result is exactly `50`. -/
theorem calculateStats_memory_correct :
    (∀ (sc : CalcState) (cid : String) (now : Nat) (s : StatsResponse),
        memPercentOf sc cid now s =
          memoryPercentSpec s.memoryStats.usage s.memoryStats.limit (reportedCache s))
    ∧ memPercentOf emptyCalcState "c" 0 sampleCurr = 50 := by
  constructor
  · exact memPercentOf_eq
  · rw [memPercentOf_eq]
    rw [show reportedCache sampleCurr = 200000000 from rfl]
    norm_num [memoryPercentSpec, sampleCurr, wsub, U64]

/-- C10: the memory computation subtracts the reported cache as unsigned
64-bit arithmetic, so a sample with positive limit whose cache exceeds its
usage wraps around modulo `2 ^ 64` and yields a memory percent far above
`100`: the result is not confined to `[0, 100]`. -/
theorem calculateStats_memory_wraparound :
    100 < memPercentOf emptyCalcState "c" 0 sampleWrap ∧
      0 < sampleWrap.memoryStats.limit ∧
      sampleWrap.memoryStats.usage < reportedCache sampleWrap := by
  refine ⟨?_, by norm_num [sampleWrap], ?_⟩
  · rw [memPercentOf_eq]
    rw [show reportedCache sampleWrap = 200 from rfl]
    norm_num [memoryPercentSpec, sampleWrap, wsub, U64]
  · rw [show reportedCache sampleWrap = 200 from rfl]
    norm_num [sampleWrap]

/-! ## Stats producer loop theorems -/

/-- Folding non-blocking sends over any item sequence never grows the
channel buffer past its capacity. -/
theorem trySend_fold_length (xs : List ContainerStats) :
    ∀ q : List ContainerStats, q.length ≤ statsChanCap →
      (xs.foldl (fun acc x => (trySend acc x).1) q).length ≤ statsChanCap := by
  induction xs with
  | nil =>
    intro q hq
    simpa using hq
  | cons x xs ih =>
    intro q hq
    simp only [List.foldl_cons]
    apply ih
    unfold trySend
    split
    · simp only [List.length_append, List.length_singleton]
      unfold statsChanCap at *
      omega
    · simpa using hq

/-- C3 (counterexample): with the stream opened at instant 0, a sample
decoded at 0.5 s is not passed to `CalculateStats` at all — the calls list
stays empty and no baseline is stored — because the calculation happens
inside the 1-second throttle check, contradicting the claim that every
decoded sample is computed. -/
theorem statsHandler_throttle_skips_calculation :
    (producerRun "c" (initProducer 0 emptyCalcState)
        [(500000000, sampleCurr)]).calcCalls = []
    ∧ (producerRun "c" (initProducer 0 emptyCalcState)
        [(500000000, sampleCurr)]).calcState "c" = none := by
  constructor <;> rfl

/-- C3 (amended): a decoded sample is passed to `CalculateStats` only when
at least 1 second has elapsed since the last successful send; a sample
arriving sooner is skipped entirely — neither computed nor enqueued, and
the baseline is not refreshed.  When the throttle admits a sample it is
computed and the baseline is replaced. -/
theorem producerStep_throttle (cid : String) (st : ProducerState) (now : Nat)
    (sample : StatsResponse) :
    (now - st.lastSendTime < sendInterval → producerStep cid st (now, sample) = st)
    ∧ (sendInterval ≤ now - st.lastSendTime →
        (producerStep cid st (now, sample)).calcCalls = st.calcCalls ++ [sample]
        ∧ (producerStep cid st (now, sample)).calcState cid = some sample) := by
  constructor
  · intro hlt
    simp [producerStep, Nat.not_le.mpr hlt]
  · intro hge
    simp [producerStep, hge, CalculateStats, trySend]

/-- C3 (witness): a sample decoded at 1.5 s is computed and stored as the
new baseline. -/
theorem producerStep_throttle_witness :
    (producerStep "c" (initProducer 0 emptyCalcState)
        (1500000000, sampleCurr)).calcCalls = [sampleCurr]
    ∧ (producerStep "c" (initProducer 0 emptyCalcState)
        (1500000000, sampleCurr)).calcState "c" = some sampleCurr := by
  have h := (producerStep_throttle "c" (initProducer 0 emptyCalcState)
    1500000000 sampleCurr).2 (by norm_num [sendInterval, initProducer])
  simpa [initProducer] using h

/-- C4: the stats channel of capacity 100 never holds more than 100 items
under any enqueue sequence; the non-blocking send on a full buffer returns
at once with the buffer unchanged and the item discarded; and inside the
producer loop a full buffer leaves the channel untouched while recording
exactly one warning — producer and consumer continue. -/
theorem statsChan_nonblocking_bounded (xs : List ContainerStats)
    (q : List ContainerStats) (hq : q.length ≤ statsChanCap) :
    (xs.foldl (fun acc x => (trySend acc x).1) q).length ≤ statsChanCap
    ∧ (∀ x, statsChanCap ≤ q.length → trySend q x = (q, false))
    ∧ (∀ cid st now sample, statsChanCap ≤ st.statsChan.length →
        sendInterval ≤ now - st.lastSendTime →
        (producerStep cid st (now, sample)).statsChan = st.statsChan
        ∧ (producerStep cid st (now, sample)).warnings = st.warnings + 1) := by
  refine ⟨trySend_fold_length xs q hq, ?_, ?_⟩
  · intro x hx
    unfold trySend
    rw [if_neg (by omega)]
  · intro cid st now sample hfull hge
    constructor <;>
      simp [producerStep, hge, CalculateStats, trySend, Nat.not_lt.mpr hfull]

/-- C4 (witness): pushing 105 results into an initially empty buffer leaves
at most 100 items. -/
theorem statsChan_nonblocking_bounded_witness :
    ((List.replicate 105 cstats0).foldl
        (fun acc x => (trySend acc x).1) []).length ≤ statsChanCap :=
  (statsChan_nonblocking_bounded (List.replicate 105 cstats0) []
    (by norm_num [statsChanCap])).1

/-! ## Client reconnect state machine theorems -/

/-- C8: while the attempt counter is below the maximum, a close schedules a
reconnect after `min(1000 ms * 2 ^ attempt, 30000 ms)` and increments the
counter; at the maximum no reconnect is scheduled; a successful open resets
the counter to 0; and setting the target address to null cancels any
pending scheduled attempt and leaves the state disconnected. -/
theorem useWebSocket_reconnect_backoff (s : WSState) :
    (s.reconnectAttempts < maxReconnectAttemptsDefault →
        (wsOnClose s).reconnectTimeout =
          some (min (1000 * 2 ^ s.reconnectAttempts) 30000)
        ∧ (wsOnClose s).reconnectAttempts = s.reconnectAttempts + 1
        ∧ (wsOnClose s).status = WSStatus.disconnected)
    ∧ (maxReconnectAttemptsDefault ≤ s.reconnectAttempts →
        (wsOnClose s).reconnectTimeout = s.reconnectTimeout
        ∧ (wsOnClose s).reconnectAttempts = s.reconnectAttempts)
    ∧ (wsOnOpen s).reconnectAttempts = 0
    ∧ (wsOnOpen s).status = WSStatus.connected
    ∧ (wsSetUrlNone s).reconnectTimeout = none
    ∧ (wsSetUrlNone s).status = WSStatus.disconnected := by
  refine ⟨fun hlt => ?_, fun hge => ?_, rfl, rfl, rfl, rfl⟩
  · simp [wsOnClose, hlt, reconnectIntervalDefault, backoffCap]
  · simp [wsOnClose, Nat.not_lt.mpr hge]

/-- C8 (witness): the sixth consecutive failure (attempt counter 5) is
rescheduled after the 30-second cap, `min(1000 * 32, 30000) = 30000`. -/
theorem useWebSocket_reconnect_backoff_witness :
    (wsOnClose ⟨WSStatus.error, some "ws", 5, none⟩).reconnectTimeout = some 30000
    ∧ (wsOnClose ⟨WSStatus.error, some "ws", 5, none⟩).reconnectAttempts = 6 := by
  have h := (useWebSocket_reconnect_backoff ⟨WSStatus.error, some "ws", 5, none⟩).1
    (by norm_num [maxReconnectAttemptsDefault])
  refine ⟨?_, h.2.1⟩
  rw [h.1]
  norm_num

end KubeVision
